import Mathlib

/-!
Shallow embedding of BatterySitter (src/battery_sitter.py) in Lean 4.

The program is a reconciliation loop coordinating an EV charger probe and a
home-battery cloud. The state carried across ticks is the pair of booleans
(is_charging, manual_charge_enabled) on the BatterySitter object; each tick
reads the charger status, reads a battery telemetry snapshot, and applies the
decision logic of monitor_loop (lines 303-397), issuing at most one override
command per tick via set_instant_manual_charge.

Python values that may flow out of the telemetry dictionary are modelled by
PyVal; Python float payloads are modelled by rationals, which is exact for
every comparison the program performs (strict comparison against zero).
-/

/-- A Python value as it can appear in the battery telemetry dictionary:
int, float, bool (a subclass of int in Python), str or None. -/
inductive PyVal where
  | pyInt : Int → PyVal
  | pyFloat : Rat → PyVal
  | pyBool : Bool → PyVal
  | pyStr : String → PyVal
  | pyNone : PyVal
deriving DecidableEq

/-- Python isinstance(x, (int, float)). True for int and float, and also for
bool because bool is a subclass of int in Python. -/
def isinstance_int_float : PyVal → Bool
  | .pyInt _ => true
  | .pyFloat _ => true
  | .pyBool _ => true
  | .pyStr _ => false
  | .pyNone => false

/-- The numeric value of a PyVal, meaningful when isinstance_int_float holds.
Python treats True as 1 and False as 0 in comparisons. -/
def numVal : PyVal → Rat
  | .pyInt i => (i : Rat)
  | .pyFloat q => q
  | .pyBool b => if b then 1 else 0
  | .pyStr _ => 0
  | .pyNone => 0

/-- battery_already_charging, monitor_loop lines 298-301:
isinstance(battery_power, (int, float)) and battery_power > 0. -/
def battery_already_charging (battery_power : PyVal) : Bool :=
  isinstance_int_float battery_power && decide (0 < numVal battery_power)

/-- The energy-flow dictionary as used by monitor_loop: the two keys it reads,
each possibly absent. -/
structure BatteryInfo where
  batterySoc : Option PyVal := none
  batteryPower : Option PyVal := none
deriving DecidableEq

/-- Outcome of the upstream get_energy_flow call inside get_battery_info. -/
inductive EnergyFlowResult where
  | flow : BatteryInfo → EnergyFlowResult
  | isNone : EnergyFlowResult
  | failed : EnergyFlowResult
deriving DecidableEq

/-- get_battery_info, lines 136-159: returns the energy-flow dictionary; on a
None result or any exception it logs and returns the empty dictionary, never
raising to the caller. -/
def get_battery_info : EnergyFlowResult → BatteryInfo
  | .flow f => f
  | .isNone => {}
  | .failed => {}

/-- battery_info.get(key, N/A) as performed at lines 283-285: a missing key
yields the string N/A. -/
def dict_get (v : Option PyVal) : PyVal :=
  v.getD (.pyStr "N/A")

/-- The two charger fields read by get_zappi_charging_status. -/
structure ZappiFields where
  status : String
  plug_status : String
deriving DecidableEq

/-- Outcome of the refresh-and-read inside get_zappi_charging_status. -/
inductive ZappiRead where
  | fields : ZappiFields → ZappiRead
  | failed : ZappiRead
deriving DecidableEq

/-- charging_statuses list, line 117. -/
def charging_statuses : List String := ["Charging", "Boosting"]

/-- An override command as issued through set_instant_manual_charge. The
charging power is an integer, matching the declared type of the configured
charging_power. -/
structure OverrideCmd where
  enable : Bool
  duration_minutes : Int
  power_kw : Int
deriving DecidableEq

/-- get_zappi_charging_status, lines 105-134: computes whether the charger is
actively charging from its status and plug_status fields; any exception is
caught and turned into false. The second component records the override
commands issued by this function, which is none: the function only reads. -/
def get_zappi_charging_status : ZappiRead → Bool × List OverrideCmd
  | .fields z =>
      (charging_statuses.contains z.status && z.plug_status == "Charging", [])
  | .failed => (false, [])

/-- A JSON value as used in the override request payload. -/
inductive JsonVal where
  | jbool : Bool → JsonVal
  | jstr : String → JsonVal
deriving DecidableEq

/-- The HTTP request sent by set_instant_manual_charge. -/
structure HttpRequest where
  method : String
  url : String
  json : List (String × JsonVal)
deriving DecidableEq

/-- The parts of the battery-cloud client session that set_instant_manual_charge
reads: the base URL and the station id. -/
structure SigenSession where
  BASE_URL : String
  station_id : String
deriving DecidableEq

/-- set_instant_manual_charge, lines 194-250: builds the PUT request against
the fixed (vendor-misspelled) endpoint path with the JSON payload of lines
223-229, sends it, and on any exception logs and re-raises. The callOk flag
models whether the token refresh and the HTTP call succeed; on failure the
function propagates the error. On success it returns the request that was
sent. -/
def set_instant_manual_charge (sigen : SigenSession) (enable : Bool)
    (duration_minutes : Int) (power_kw : Int) (mode : String)
    (callOk : Bool) : Except String HttpRequest :=
  let url := sigen.BASE_URL ++ "device/energy-profile/instant/manunal"
  let payload : List (String × JsonVal) :=
    [("enable", .jbool enable),
     ("stationId", .jstr sigen.station_id),
     ("mode", .jstr mode),
     ("duration", .jstr (toString duration_minutes)),
     ("powerLimitation", .jstr (toString power_kw))]
  if callOk then
    .ok { method := "PUT", url := url, json := payload }
  else
    .error "Error setting instant manual charge"

/-- The cross-tick state of the sitter: self.is_charging and
self.manual_charge_enabled (lines 66 and 68). -/
structure SitterState where
  is_charging : Bool
  manual_charge_enabled : Bool
deriving DecidableEq

/-- Result of one execution of the decision block of monitor_loop
(lines 303-397): the state after the block, the override commands attempted
(at most one), and whether an exception escaped the block to the loop-level
catch. -/
structure TickResult where
  state : SitterState
  cmds : List OverrideCmd
  raised : Bool
deriving DecidableEq

/-- The decision block of monitor_loop, lines 303-397, with the computed
boolean battery_already_charging abstracted as bac and the success of the
set_instant_manual_charge call as cmdOk. Each branch mirrors the source:
state assignments follow the awaited command call, so when the call raises
the state fields keep their tick-start values. -/
def tickStep (charging_power : Int) (zappi_charging : Bool) (bac : Bool)
    (st : SitterState) (cmdOk : Bool) : TickResult :=
  if zappi_charging && !st.is_charging then
    -- EV charging just started (lines 304-329)
    if bac then
      { state := { is_charging := true, manual_charge_enabled := false },
        cmds := [], raised := false }
    else
      let cmd : OverrideCmd :=
        { enable := true, duration_minutes := 30, power_kw := charging_power }
      if cmdOk then
        { state := { is_charging := true, manual_charge_enabled := true },
          cmds := [cmd], raised := false }
      else
        { state := st, cmds := [cmd], raised := true }
  else if !zappi_charging && st.is_charging then
    -- EV charging just stopped (lines 331-346)
    if st.manual_charge_enabled then
      let cmd : OverrideCmd :=
        { enable := false, duration_minutes := 0, power_kw := 0 }
      if cmdOk then
        { state := { is_charging := false, manual_charge_enabled := false },
          cmds := [cmd], raised := false }
      else
        { state := st, cmds := [cmd], raised := true }
    else
      { state := { is_charging := false,
                   manual_charge_enabled := st.manual_charge_enabled },
        cmds := [], raised := false }
  else if zappi_charging && st.is_charging then
    -- EV charging continues (lines 348-378)
    if bac then
      { state := st, cmds := [], raised := false }
    else
      let cmd : OverrideCmd :=
        { enable := true, duration_minutes := 30, power_kw := charging_power }
      if cmdOk then
        { state := { is_charging := st.is_charging, manual_charge_enabled := true },
          cmds := [cmd], raised := false }
      else
        { state := st, cmds := [cmd], raised := true }
  else
    -- No state change (lines 380-397): logging only
    { state := st, cmds := [], raised := false }

/-- One tick of monitor_loop applied to a battery power value: computes
battery_already_charging from the PyVal read out of the telemetry dictionary
(lines 298-301) and runs the decision block. -/
def monitorTick (charging_power : Int) (zappi_charging : Bool)
    (battery_power : PyVal) (st : SitterState) (cmdOk : Bool) : TickResult :=
  tickStep charging_power zappi_charging (battery_already_charging battery_power)
    st cmdOk

/-- The states of the sitter reachable by the monitoring loop from the initial
state (both flags false, lines 66 and 68) under any sequence of tick inputs. -/
inductive Reachable (charging_power : Int) : SitterState → Prop where
  | init : Reachable charging_power { is_charging := false, manual_charge_enabled := false }
  | step (z : Bool) (bp : PyVal) (ok : Bool) {st : SitterState} :
      Reachable charging_power st →
      Reachable charging_power (monitorTick charging_power z bp st ok).state

/-- Modelled from the spec: the six-row decision table of section 4.4, read
directly off the words of the spec table. Input is (evNow, evPrev,
batteryCharging) plus the prior ownsOverride; output is the list of override
commands the row prescribes and the new ownsOverride. -/
def specTickTable (charging_power : Int) (evNow evPrev bac owns : Bool) :
    List OverrideCmd × Bool :=
  match evNow, evPrev, bac with
  | true, false, true => ([], false)
  | true, false, false =>
      ([{ enable := true, duration_minutes := 30, power_kw := charging_power }], true)
  | false, true, _ =>
      ((if owns then
          [{ enable := false, duration_minutes := 0, power_kw := 0 }]
        else []), false)
  | true, true, true => ([], owns)
  | true, true, false =>
      ([{ enable := true, duration_minutes := 30, power_kw := charging_power }], true)
  | false, false, _ => ([], owns)

/-- The exception classes relevant to the loop-level handlers of
monitor_loop, lines 402-408. -/
inductive PyExc where
  | keyboardInterrupt : PyExc
  | exception : String → PyExc
deriving DecidableEq

/-- Input to one iteration of the while loop: either the decision block runs
on the tick observations (with cmdOk telling whether the override call
succeeds; the blanket except clause catches what it raises), or an exception
is raised elsewhere in the try block (reconnect failure, shutdown signal). -/
inductive TickInput where
  | tick : Bool → PyVal → Bool → TickInput
  | raiseDuring : PyExc → TickInput
deriving DecidableEq

/-- The while loop of monitor_loop, lines 262-408, with fuel bounding the
number of iterations. Returns the final state and true when the loop exited
through the break of the KeyboardInterrupt handler (line 404); an Exception
is caught at line 405 and the loop proceeds to the next cycle. -/
def monitor_loop (charging_power : Int) (inputs : Nat → TickInput) :
    Nat → Nat → SitterState → SitterState × Bool
  | 0, _, st => (st, false)
  | n + 1, i, st =>
    match inputs i with
    | .raiseDuring .keyboardInterrupt => (st, true)
    | .raiseDuring (.exception _) => monitor_loop charging_power inputs n (i + 1) st
    | .tick z bp ok =>
        monitor_loop charging_power inputs n (i + 1)
          (monitorTick charging_power z bp st ok).state

/-- Invariant preservation of one decision step: if ownership implies the
EV-charging flag before the step, it does after, for every input and every
command outcome. -/
theorem tickStep_preserves_inv (cp : Int) (z bac : Bool) (st : SitterState)
    (ok : Bool) (h : st.manual_charge_enabled = true → st.is_charging = true) :
    (tickStep cp z bac st ok).state.manual_charge_enabled = true →
    (tickStep cp z bac st ok).state.is_charging = true := by
  rcases st with ⟨ic, mc⟩
  cases z <;> cases bac <;> cases ic <;> cases mc <;> cases ok <;>
    simp_all [tickStep]

/-- C1: for every reachable state of the monitoring loop, the ownership flag
implies the EV-charging flag; moreover ownership is forced false on the tick
where EV charging is detected to have stopped (when the disable command, if
any, succeeds), and on the tick where EV charging starts while the battery is
already charging. -/
theorem ownsOverride_implies_isEvCharging :
    (∀ (cp : Int) (st : SitterState), Reachable cp st →
      st.manual_charge_enabled = true → st.is_charging = true) ∧
    (∀ (cp : Int) (bp : PyVal) (st : SitterState), st.is_charging = true →
      (monitorTick cp false bp st true).state.manual_charge_enabled = false) ∧
    (∀ (cp : Int) (bp : PyVal) (st : SitterState) (ok : Bool),
      st.is_charging = false → battery_already_charging bp = true →
      (monitorTick cp true bp st ok).state.manual_charge_enabled = false) := by
  refine ⟨?_, ?_, ?_⟩
  · intro cp st h
    induction h with
    | init => simp
    | step z bp ok _ ih =>
        exact tickStep_preserves_inv cp z (battery_already_charging bp) _ ok ih
  · intro cp bp st h
    rcases st with ⟨ic, mc⟩
    cases ic
    · cases h
    · cases mc <;> simp [monitorTick, tickStep]
  · intro cp bp st ok h hbac
    rcases st with ⟨ic, mc⟩
    cases ic
    · simp [monitorTick, tickStep, hbac]
    · cases h

/-- Witness for C1 at concrete inputs: the state with both flags true is
reachable in one tick and satisfies the invariant, stopping EV charging from
it clears ownership, and an EV start over an already-charging battery yields
no ownership. -/
theorem ownsOverride_implies_isEvCharging_witness :
    (SitterState.mk true true).is_charging = true ∧
    (monitorTick 1 false (.pyStr "N/A") ⟨true, true⟩ true).state.manual_charge_enabled = false ∧
    (monitorTick 1 true (.pyInt 500) ⟨false, false⟩ true).state.manual_charge_enabled = false := by
  refine ⟨?_, ?_, ?_⟩
  · exact ownsOverride_implies_isEvCharging.1 1 ⟨true, true⟩
      (Reachable.step true (.pyInt 0) true Reachable.init) rfl
  · exact ownsOverride_implies_isEvCharging.2.1 1 (.pyStr "N/A") ⟨true, true⟩ rfl
  · exact ownsOverride_implies_isEvCharging.2.2 1 (.pyInt 500) ⟨false, false⟩ true rfl
      (by decide)

/-- C2: when the override call succeeds, the decision block performs exactly
the action and ownership update of the six-row table of the spec, where evPrev
is the carried is_charging flag and ownsOverride is manual_charge_enabled. -/
theorem tickStep_matches_specTable (cp : Int) (evNow bac : Bool)
    (st : SitterState) :
    ((tickStep cp evNow bac st true).cmds,
     (tickStep cp evNow bac st true).state.manual_charge_enabled) =
      specTickTable cp evNow st.is_charging bac st.manual_charge_enabled := by
  rcases st with ⟨ic, mc⟩
  cases evNow <;> cases bac <;> cases ic <;> cases mc <;> rfl

/-- C3: on the EV-start transition with the battery already charging
(numeric power strictly positive), the tick issues no override command, marks
EV charging active, and does not claim ownership, whatever the command
outcome flag. -/
theorem evStart_batteryCharging_noOwnership (cp : Int) (bp : PyVal)
    (st : SitterState) (ok : Bool) (hic : st.is_charging = false)
    (hnum : isinstance_int_float bp = true) (hpos : 0 < numVal bp) :
    monitorTick cp true bp st ok =
      { state := { is_charging := true, manual_charge_enabled := false },
        cmds := [], raised := false } := by
  have hbac : battery_already_charging bp = true := by
    simp [battery_already_charging, hnum, hpos]
  simp [monitorTick, tickStep, hic, hbac]

/-- Witness for C3: EV start with battery power 500 from the initial state. -/
theorem evStart_batteryCharging_noOwnership_witness :
    (SitterState.mk false false).is_charging = false ∧
    isinstance_int_float (.pyInt 500) = true ∧
    0 < numVal (.pyInt 500) ∧
    monitorTick 1 true (.pyInt 500) ⟨false, false⟩ true =
      { state := { is_charging := true, manual_charge_enabled := false },
        cmds := [], raised := false } :=
  ⟨rfl, rfl, by decide,
    evStart_batteryCharging_noOwnership 1 (.pyInt 500) ⟨false, false⟩ true rfl rfl
      (by decide)⟩

/-- C4: on the EV-stop transition, if ownership was held the tick issues
exactly one disable command setOverride(false, 0, 0) and clears both flags;
if ownership was not held it issues no command and only clears the
EV-charging flag. -/
theorem evStop_disable_iff_owned (cp : Int) (bp : PyVal) (st : SitterState)
    (hic : st.is_charging = true) :
    (st.manual_charge_enabled = true →
      monitorTick cp false bp st true =
        { state := { is_charging := false, manual_charge_enabled := false },
          cmds := [{ enable := false, duration_minutes := 0, power_kw := 0 }],
          raised := false }) ∧
    (st.manual_charge_enabled = false →
      monitorTick cp false bp st true =
        { state := { is_charging := false, manual_charge_enabled := false },
          cmds := [], raised := false }) := by
  rcases st with ⟨ic, mc⟩
  cases ic
  · cases hic
  · cases mc
    · exact ⟨(fun h => nomatch h), (fun _ => rfl)⟩
    · exact ⟨(fun _ => rfl), (fun h => nomatch h)⟩

/-- Witness for C4: EV stop from the owned state and from the unowned state. -/
theorem evStop_disable_iff_owned_witness :
    (monitorTick 1 false (.pyInt 0) ⟨true, true⟩ true =
      { state := { is_charging := false, manual_charge_enabled := false },
        cmds := [{ enable := false, duration_minutes := 0, power_kw := 0 }],
        raised := false }) ∧
    (monitorTick 1 false (.pyInt 0) ⟨true, false⟩ true =
      { state := { is_charging := false, manual_charge_enabled := false },
        cmds := [], raised := false }) :=
  ⟨(evStop_disable_iff_owned 1 (.pyInt 0) ⟨true, true⟩ rfl).1 rfl,
   (evStop_disable_iff_owned 1 (.pyInt 0) ⟨true, false⟩ rfl).2 rfl⟩

/-- C7: when the override call of a tick raises, the tick-start state is kept
unchanged (no partial update); every tick attempts at most one command; and
from the unchanged state the next tick under the same observations attempts
exactly the same command. -/
theorem commandFailure_atomicity (cp : Int) (z : Bool) (bp : PyVal)
    (st : SitterState) (hr : (monitorTick cp z bp st false).raised = true) :
    (monitorTick cp z bp st false).state = st ∧
    (∀ ok : Bool, (monitorTick cp z bp st ok).cmds.length ≤ 1) ∧
    (monitorTick cp z bp (monitorTick cp z bp st false).state true).cmds =
      (monitorTick cp z bp st false).cmds := by
  rcases st with ⟨ic, mc⟩
  simp only [monitorTick] at hr ⊢
  revert hr
  generalize battery_already_charging bp = b
  cases z <;> cases b <;> cases ic <;> cases mc <;> intro hr <;>
    first
      | exact ⟨rfl, (fun ok => by cases ok <;> simp [tickStep]), rfl⟩
      | exact nomatch hr

/-- Witness for C7: a failing enable command on the EV-start transition. -/
theorem commandFailure_atomicity_witness :
    (monitorTick 1 true (.pyInt 0) ⟨false, false⟩ false).raised = true ∧
    (monitorTick 1 true (.pyInt 0) ⟨false, false⟩ false).state = ⟨false, false⟩ ∧
    (monitorTick 1 true (.pyInt 0) ⟨false, false⟩ false).cmds.length ≤ 1 ∧
    (monitorTick 1 true (.pyInt 0)
        (monitorTick 1 true (.pyInt 0) ⟨false, false⟩ false).state true).cmds =
      (monitorTick 1 true (.pyInt 0) ⟨false, false⟩ false).cmds := by
  have h := commandFailure_atomicity 1 true (.pyInt 0) ⟨false, false⟩ (by decide)
  exact ⟨by decide, h.1, h.2.1 false, h.2.2⟩

/-- C5: the charging-status probe returns true exactly when the charger state
is Charging or Boosting and the plug state is Charging; on any exception
during the refresh or read it returns false instead of propagating; and it
issues no override command. -/
theorem zappi_probe_correct (r : ZappiRead) :
    ((get_zappi_charging_status r).1 = true ↔
      ∃ z : ZappiFields, r = .fields z ∧
        (z.status = "Charging" ∨ z.status = "Boosting") ∧
        z.plug_status = "Charging") ∧
    (r = .failed → (get_zappi_charging_status r).1 = false) ∧
    (get_zappi_charging_status r).2 = [] := by
  refine ⟨?_, ?_, ?_⟩
  · cases r with
    | fields z => simp [get_zappi_charging_status, charging_statuses]
    | failed => simp [get_zappi_charging_status]
  · intro h
    cases h
    rfl
  · cases r <;> rfl

/-- Witness for C5: a successful read in the Boosting state with the plug
charging. -/
theorem zappi_probe_correct_witness :
    (ZappiRead.failed = .failed → (get_zappi_charging_status .failed).1 = false) ∧
    (get_zappi_charging_status (.fields ⟨"Boosting", "Charging"⟩)).1 = true :=
  ⟨(zappi_probe_correct .failed).2.1,
   (zappi_probe_correct (.fields ⟨"Boosting", "Charging"⟩)).1.mpr
     ⟨⟨"Boosting", "Charging"⟩, rfl, Or.inr rfl, rfl⟩⟩

/-- C6: every successful override call sends a PUT to the fixed misspelled
path appended to the base URL with exactly the five-field JSON body of the
claim, and a failing call propagates the error to the caller. -/
theorem override_request_shape (sigen : SigenSession) (enable : Bool)
    (duration_minutes : Int) (power_kw : Int) (callOk : Bool) :
    (∀ req : HttpRequest,
      set_instant_manual_charge sigen enable duration_minutes power_kw "0" callOk =
        .ok req →
      req.method = "PUT" ∧
      req.url = sigen.BASE_URL ++ "device/energy-profile/instant/manunal" ∧
      req.json =
        [("enable", .jbool enable),
         ("stationId", .jstr sigen.station_id),
         ("mode", .jstr "0"),
         ("duration", .jstr (toString duration_minutes)),
         ("powerLimitation", .jstr (toString power_kw))]) ∧
    (callOk = false →
      set_instant_manual_charge sigen enable duration_minutes power_kw "0" callOk =
        .error "Error setting instant manual charge") := by
  constructor
  · intro req hreq
    cases callOk
    · exact nomatch hreq
    · simp only [set_instant_manual_charge, if_true] at hreq
      cases hreq
      exact ⟨rfl, rfl, rfl⟩
  · intro h
    cases h
    rfl

/-- Witness for C6: the enable call issued on EV start with power 1 kW, and a
failing call. -/
theorem override_request_shape_witness :
    ((set_instant_manual_charge ⟨"https://api-eu.sigencloud.com/", "station1"⟩
        true 30 1 "0" true = .ok
          { method := "PUT",
            url := "https://api-eu.sigencloud.com/device/energy-profile/instant/manunal",
            json :=
              [("enable", .jbool true), ("stationId", .jstr "station1"),
               ("mode", .jstr "0"), ("duration", .jstr "30"),
               ("powerLimitation", .jstr "1")] } →
      "PUT" = "PUT") ∧
     (set_instant_manual_charge ⟨"https://api-eu.sigencloud.com/", "station1"⟩
        true 30 1 "0" false =
          .error "Error setting instant manual charge")) := by
  constructor
  · intro h
    exact ((override_request_shape ⟨"https://api-eu.sigencloud.com/", "station1"⟩
      true 30 1 true).1 _ h).1
  · exact (override_request_shape ⟨"https://api-eu.sigencloud.com/", "station1"⟩
      true 30 1 false).2 rfl

/-- C8: loop resilience. An Exception raised during the body of an iteration
is caught and the loop proceeds to the next cycle with the state intact; a
completed tick likewise proceeds to the next cycle; and whenever the loop
exits through its break, some iteration received the KeyboardInterrupt
shutdown signal — no other exception ever terminates the loop. -/
theorem loop_never_terminated_by_exception :
    (∀ (cp : Int) (inputs : Nat → TickInput) (n i : Nat) (st : SitterState)
        (m : String), inputs i = .raiseDuring (.exception m) →
        monitor_loop cp inputs (n + 1) i st = monitor_loop cp inputs n (i + 1) st) ∧
    (∀ (cp : Int) (inputs : Nat → TickInput) (n i : Nat) (st : SitterState)
        (z : Bool) (bp : PyVal) (ok : Bool), inputs i = .tick z bp ok →
        monitor_loop cp inputs (n + 1) i st =
          monitor_loop cp inputs n (i + 1) (monitorTick cp z bp st ok).state) ∧
    (∀ (cp : Int) (inputs : Nat → TickInput) (n i : Nat) (st : SitterState),
        (monitor_loop cp inputs n i st).2 = true →
        ∃ k, inputs k = .raiseDuring .keyboardInterrupt) := by
  refine ⟨?_, ?_, ?_⟩
  · intro cp inputs n i st m h
    simp only [monitor_loop, h]
  · intro cp inputs n i st z bp ok h
    simp only [monitor_loop, h]
  · intro cp inputs n
    induction n with
    | zero => intro i st h; cases h
    | succ n ih =>
        intro i st h
        simp only [monitor_loop] at h
        cases hi : inputs i with
        | raiseDuring e =>
            cases e with
            | keyboardInterrupt => exact ⟨i, hi⟩
            | exception m =>
                rw [hi] at h
                exact ih (i + 1) st h
        | tick z bp ok =>
            rw [hi] at h
            exact ih (i + 1) (monitorTick cp z bp st ok).state h

/-- Witness for C8: an Exception at step 0 makes the loop proceed to the
next cycle, a completed tick makes it proceed with the updated state, and a
run that exited through the break received KeyboardInterrupt. -/
theorem loop_never_terminated_by_exception_witness :
    (monitor_loop 1 (fun _ => .raiseDuring (.exception "boom")) 3 0 ⟨false, false⟩ =
      monitor_loop 1 (fun _ => .raiseDuring (.exception "boom")) 2 1 ⟨false, false⟩) ∧
    (monitor_loop 1 (fun _ => .tick true (.pyInt 0) true) 3 0 ⟨false, false⟩ =
      monitor_loop 1 (fun _ => .tick true (.pyInt 0) true) 2 1
        (monitorTick 1 true (.pyInt 0) ⟨false, false⟩ true).state) ∧
    (∃ _k : Nat, TickInput.raiseDuring .keyboardInterrupt =
      TickInput.raiseDuring .keyboardInterrupt) :=
  ⟨loop_never_terminated_by_exception.1 1 _ 2 0 ⟨false, false⟩ "boom" rfl,
   loop_never_terminated_by_exception.2.1 1 _ 2 0 ⟨false, false⟩ true (.pyInt 0)
     true rfl,
   loop_never_terminated_by_exception.2.2 1
     (fun _ => .raiseDuring .keyboardInterrupt) 1 0 ⟨false, false⟩ rfl⟩

/-- C9: the battery-already-charging decision holds exactly when the power
value is numeric and strictly positive; a non-numeric value never satisfies
it; a missing batteryPower key (read back as the string N/A) never satisfies
it; and the empty snapshots produced by a failing or None telemetry call
never satisfy it. -/
theorem batteryAlreadyCharging_iff_numeric_positive :
    (∀ bp : PyVal, battery_already_charging bp = true ↔
        isinstance_int_float bp = true ∧ 0 < numVal bp) ∧
    (∀ bp : PyVal, isinstance_int_float bp = false →
        battery_already_charging bp = false) ∧
    (∀ info : BatteryInfo, info.batteryPower = none →
        battery_already_charging (dict_get info.batteryPower) = false) ∧
    battery_already_charging (dict_get (get_battery_info .failed).batteryPower) = false ∧
    battery_already_charging (dict_get (get_battery_info .isNone).batteryPower) = false := by
  refine ⟨?_, ?_, ?_, rfl, rfl⟩
  · intro bp
    simp [battery_already_charging]
  · intro bp h
    simp [battery_already_charging, h]
  · intro info h
    rw [h]
    rfl

/-- Witness for C9: power 500 is numeric and positive and satisfies the
decision, the string N/A does not, and a snapshot with no batteryPower key
does not. -/
theorem batteryAlreadyCharging_iff_numeric_positive_witness :
    battery_already_charging (.pyInt 500) = true ∧
    battery_already_charging (.pyStr "N/A") = false ∧
    battery_already_charging (dict_get (BatteryInfo.mk none none).batteryPower) = false :=
  ⟨(batteryAlreadyCharging_iff_numeric_positive.1 (.pyInt 500)).mpr
      ⟨rfl, by decide⟩,
   batteryAlreadyCharging_iff_numeric_positive.2.1 (.pyStr "N/A") rfl,
   batteryAlreadyCharging_iff_numeric_positive.2.2.1 ⟨none, none⟩ rfl⟩

/-- C10: Python booleans pass the isinstance int-float check because bool is
a subclass of int, so a batteryPower of True counts as charging (True is
greater than 0) and a batteryPower of False counts as numeric zero, not as
an unknown value. -/
theorem pyBool_is_numeric_for_charging_check :
    battery_already_charging (.pyBool true) = true ∧
    battery_already_charging (.pyBool false) = false ∧
    isinstance_int_float (.pyBool true) = true ∧
    isinstance_int_float (.pyBool false) = true := by
  decide
